import Mathlib

/-!
Shallow embedding of the Shefa Green sensor-controller firmware.

The embedding follows `src/unnamed/part_000`, the full variant that contains
the HTTP transport (`sendReadingsToServer`), the transmitting `PushNow` and
the scheduler `loop`; `src/src/ja485_2.cpp` shares the configuration,
reading and persistence code verbatim and stubs out the transport.

Modelling conventions:
* C `float` values are embedded as `ℚ`; the constants 0.1, 60.0 and 1e-4 and
  all arithmetic the claims depend on are exact in `ℚ`.
* `uint32_t` counters are embedded as `ℕ` reduced modulo `2 ^ 32` at every
  increment, matching unsigned wrap-around.
* `time_t` is embedded as `ℤ`; each call to `Time.now()` becomes an explicit
  `now` argument of the embedded operation.
* The EEPROM is part of the device state (field `eeprom`); `EEPROM.put` also
  bumps `eepromWrites`, so "no persistence write occurs" is directly
  statable.
* `last_changed_iso` is omitted from `ConfigParam`: in the source it is
  always `iso8601FromTime(last_changed_unix)`, a pure function of the
  retained `last_changed_unix` field, and no claim inspects the string
  itself; likewise `device_id` / `firmware_version` (external identity
  providers) and the log/publish sinks are omitted.
* The TCP transport is embedded as a `TransportBehavior` argument: either
  the connect fails (which subsumes a timeout, where `readStringUntil`
  yields a line that does not start with `"HTTP/1.1 "`), or a status line is
  read from the response.  The Arduino `String` operations used on the
  status line (`startsWith`, `substring`, `toInt`) are embedded over
  `List Char`.
-/

namespace JA485

/-- Modulus of the `uint32_t` counters. -/
def U32 : ℕ := 2 ^ 32

/-- `struct ConfigParam` (minus the derived `last_changed_iso` string). -/
structure ConfigParam where
  current_value : ℚ
  last_changed_unix : ℤ
  last_changed_source : String
deriving DecidableEq

/-- `struct PersistentConfig`. -/
@[ext]
structure PersistentConfig where
  display_interval : ℚ
  server_interval : ℚ
  boot_count : ℕ
deriving DecidableEq

/-- `struct ActionResult`.  `http_status` is an `int` member left
uninitialised on the paths that never assign it, hence `Option ℤ` with
`none` for "never assigned". -/
structure ActionResult where
  status : String
  error_reason : String
  http_status : Option ℤ
deriving DecidableEq

/-- `struct ConfigPayload` (minus the external identity fields). -/
structure ConfigPayload where
  status : String
  boot_count : ℕ
  send_success_count : ℕ
  send_fail_count : ℕ
  display_interval : ConfigParam
  server_interval : ConfigParam
deriving DecidableEq

/-- `struct ReadingPayload` (minus the external identity fields and the
derived `iso_time` string). -/
structure ReadingPayload where
  status : String
  sample_id : ℕ
  server_interval : ℚ
  display_interval : ℚ
  unix_ts : ℤ
  dummy_value : ℚ
deriving DecidableEq

/-- The mutable globals of the firmware, plus the EEPROM content and a count
of EEPROM writes. -/
structure DeviceState where
  persistent : PersistentConfig
  displayIntervalCfg : ConfigParam
  serverIntervalCfg : ConfigParam
  sendSuccessCount : ℕ
  sendFailCount : ℕ
  sampleCounter : ℕ
  lastServerPush : ℤ
  eeprom : PersistentConfig
  eepromWrites : ℕ
deriving DecidableEq

/-- Behaviour of the TCP transport during one send attempt. -/
inductive TransportBehavior
  | connectFail
  | reply (statusLine : String)
deriving DecidableEq

-- ----- Arduino String operations used on the HTTP status line -------------

/-- `String::startsWith` over character lists. -/
def charsBeginWith : List Char → List Char → Bool
  | [], _ => true
  | _ :: _, [] => false
  | a :: as, b :: bs => a = b && charsBeginWith as bs

/-- Digit-accumulating core of `atol` (stops at the first non-digit). -/
def atolDigits : List Char → ℕ → ℕ
  | [], acc => acc
  | c :: cs, acc => if c.isDigit then atolDigits cs (acc * 10 + (c.toNat - 48)) else acc

/-- Arduino `String::toInt` (= `atol`): skip whitespace, optional sign,
then leading digits; 0 when no digits are found. -/
def particleToInt (str : String) : ℤ :=
  match str.toList.dropWhile Char.isWhitespace with
  | '-' :: rest => -(atolDigits rest 0 : ℤ)
  | '+' :: rest => (atolDigits rest 0 : ℤ)
  | rest => (atolDigits rest 0 : ℤ)

/-- Arduino `String::substring(b, e)`: characters of positions `[b, e)`. -/
def substringChars (str : String) (b e : ℕ) : String :=
  String.mk ((str.toList.drop b).take (e - b))

/-- C cast of a `float` to `time_t`: truncation toward zero. -/
def floatToTimeT (q : ℚ) : ℤ := q.num.tdiv (q.den : ℤ)

-- ----- Persistence --------------------------------------------------------

/-- The range-validation part of `loadPersistent` (the spec's
`load()`): each interval field outside `[0.1, 60.0]` is replaced by its
default (display 1.0, server 5.0); `boot_count` is not validated.  The
source performs the two clamps as sequential if-statements on the record's
two distinct interval fields; since each clamp reads and writes only its
own field, this field-wise record is the same function. -/
def validateLoaded (p : PersistentConfig) : PersistentConfig :=
  { display_interval :=
      if p.display_interval < 1/10 ∨ 60 < p.display_interval
      then 1 else p.display_interval
    server_interval :=
      if p.server_interval < 1/10 ∨ 60 < p.server_interval
      then 5 else p.server_interval
    boot_count := p.boot_count }

/-- `loadPersistent()`: `EEPROM.get` into `persistent`, validate ranges,
then initialise both runtime `ConfigParam`s with source `"EEPROM"`. -/
def loadPersistent (s : DeviceState) (now : ℤ) : DeviceState :=
  let p := validateLoaded s.eeprom
  { s with
    persistent := p
    displayIntervalCfg := ⟨p.display_interval, now, "EEPROM"⟩
    serverIntervalCfg := ⟨p.server_interval, now, "EEPROM"⟩ }

/-- `savePersistent()`: mirror the two runtime values into `persistent` and
`EEPROM.put` the record. -/
def savePersistent (s : DeviceState) : DeviceState :=
  let p := { s.persistent with
             display_interval := s.displayIntervalCfg.current_value
             server_interval := s.serverIntervalCfg.current_value }
  { s with persistent := p, eeprom := p, eepromWrites := s.eepromWrites + 1 }

-- ----- Transport ----------------------------------------------------------

/-- `sendReadingsToServer`: returns `(success, httpStatus)`.  A failed
connect reports status 0; otherwise the status line is parsed when it starts
with `"HTTP/1.1 "` (characters `[9, 12)` through `toInt`) and 0 is reported
when it does not; success is exactly a status in `[200, 300)`. -/
def sendReadingsToServer (t : TransportBehavior) : Bool × ℤ :=
  match t with
  | .connectFail => (false, 0)
  | .reply statusLine =>
      let httpStatus : ℤ :=
        if charsBeginWith "HTTP/1.1 ".toList statusLine.toList
        then particleToInt (substringChars statusLine 9 12)
        else 0
      (decide (200 ≤ httpStatus ∧ httpStatus < 300), httpStatus)

-- ----- API functions ------------------------------------------------------

/-- `GetReadings()`: pre-increments `sampleCounter` (uint32 wrap) and
assembles the reading payload from the current configuration. -/
def GetReadings (s : DeviceState) (now : ℤ) : ReadingPayload × DeviceState :=
  let ctr := (s.sampleCounter + 1) % U32
  ({ status := "ok"
     sample_id := ctr
     server_interval := s.serverIntervalCfg.current_value
     display_interval := s.displayIntervalCfg.current_value
     unix_ts := now
     dummy_value := 0 },
   { s with sampleCounter := ctr })

/-- `GetConfig()`: pure read of counters and both `ConfigParam`s. -/
def GetConfig (s : DeviceState) : ConfigPayload :=
  { status := "ok"
    boot_count := s.persistent.boot_count
    send_success_count := s.sendSuccessCount
    send_fail_count := s.sendFailCount
    display_interval := s.displayIntervalCfg
    server_interval := s.serverIntervalCfg }

/-- `SetDisplayInterval(minutes)`: range check, epsilon (1e-4) no-op check,
then mutate value + timestamp + source `"Cloud/UI"` and persist. -/
def SetDisplayInterval (s : DeviceState) (now : ℤ) (minutes : ℚ) :
    ActionResult × DeviceState :=
  if minutes < 1/10 ∨ 60 < minutes then
    ({ status := "error", error_reason := "out_of_range", http_status := none }, s)
  else if |s.displayIntervalCfg.current_value - minutes| < 1/10000 then
    ({ status := "ok", error_reason := "", http_status := none }, s)
  else
    ({ status := "ok", error_reason := "", http_status := none },
     savePersistent { s with displayIntervalCfg := ⟨minutes, now, "Cloud/UI"⟩ })

/-- `SetServerInterval(minutes)`: same shape as `SetDisplayInterval`. -/
def SetServerInterval (s : DeviceState) (now : ℤ) (minutes : ℚ) :
    ActionResult × DeviceState :=
  if minutes < 1/10 ∨ 60 < minutes then
    ({ status := "error", error_reason := "out_of_range", http_status := none }, s)
  else if |s.serverIntervalCfg.current_value - minutes| < 1/10000 then
    ({ status := "ok", error_reason := "", http_status := none }, s)
  else
    ({ status := "ok", error_reason := "", http_status := none },
     savePersistent { s with serverIntervalCfg := ⟨minutes, now, "Cloud/UI"⟩ })

/-- `PushNow()`: sample, send, then increment the matching counter and
report `(status, http_status)`. -/
def PushNow (s : DeviceState) (now : ℤ) (t : TransportBehavior) :
    ActionResult × DeviceState :=
  let rs := GetReadings s now
  let sh := sendReadingsToServer t
  if sh.1 then
    ({ status := "ok", error_reason := "", http_status := some sh.2 },
     { rs.2 with sendSuccessCount := (rs.2.sendSuccessCount + 1) % U32 })
  else
    ({ status := "error", error_reason := "send_failed", http_status := some sh.2 },
     { rs.2 with sendFailCount := (rs.2.sendFailCount + 1) % U32 })

-- ----- Boot and scheduler loop --------------------------------------------

/-- `setup()`: load + validate, increment `boot_count` (uint32 wrap), and
persist the record. -/
def setup (s : DeviceState) (now : ℤ) : DeviceState :=
  let s1 := loadPersistent s now
  let p := { s1.persistent with boot_count := (s1.persistent.boot_count + 1) % U32 }
  { s1 with persistent := p, eeprom := p, eepromWrites := s1.eepromWrites + 1 }

/-- One tick of `loop()`.  The first component is a ghost observation: the
payload handed to `sendReadingsToServer` when the push phase fires, `none`
otherwise. -/
def loop (s : DeviceState) (now : ℤ) (t : TransportBehavior) :
    Option ReadingPayload × DeviceState :=
  if now - s.lastServerPush ≥ floatToTimeT (s.serverIntervalCfg.current_value * 60) then
    let s0 := { s with lastServerPush := now }
    let rs := GetReadings s0 now
    let sh := sendReadingsToServer t
    if sh.1 then
      (some rs.1, { rs.2 with sendSuccessCount := (rs.2.sendSuccessCount + 1) % U32 })
    else
      (some rs.1, { rs.2 with sendFailCount := (rs.2.sendFailCount + 1) % U32 })
  else (none, s)

/-- Process-start state: C++ zero-initialised globals, with the EEPROM blob
`blob` as the persisted content found at boot. -/
def initialState (blob : PersistentConfig) : DeviceState :=
  { persistent := ⟨0, 0, 0⟩
    displayIntervalCfg := ⟨0, 0, ""⟩
    serverIntervalCfg := ⟨0, 0, ""⟩
    sendSuccessCount := 0
    sendFailCount := 0
    sampleCounter := 0
    lastServerPush := 0
    eeprom := blob
    eepromWrites := 0 }

/-- Modelled from the spec: the abstract blob store of §1/§4.1 with no prior
persisted record yields the all-zero record (the source reads whatever the
platform EEPROM holds; the spec's "no prior persisted record" boot scenario
determines a record whose every field reads as zero). -/
def blankRecord : PersistentConfig := ⟨0, 0, 0⟩

/-- State right after `setup()` on a boot with no prior persisted record. -/
def bootState (now : ℤ) : DeviceState := setup (initialState blankRecord) now

-- ----- Helper lemmas ------------------------------------------------------

theorem U32_eq : U32 = 4294967296 := by norm_num [U32]

theorem validateLoaded_blank : validateLoaded blankRecord = ⟨1, 5, 0⟩ := by
  with_unfolding_all decide

theorem bootState_eq (now : ℤ) :
    bootState now =
      ⟨⟨1, 5, 1⟩, ⟨1, now, "EEPROM"⟩, ⟨5, now, "EEPROM"⟩, 0, 0, 0, 0, ⟨1, 5, 1⟩, 1⟩ := by
  simp [bootState, setup, loadPersistent, initialState, validateLoaded_blank, U32]

theorem GetReadings_fst (s : DeviceState) (now : ℤ) :
    (GetReadings s now).1 =
      ⟨"ok", (s.sampleCounter + 1) % U32, s.serverIntervalCfg.current_value,
       s.displayIntervalCfg.current_value, now, 0⟩ := rfl

theorem GetReadings_snd (s : DeviceState) (now : ℤ) :
    (GetReadings s now).2 = { s with sampleCounter := (s.sampleCounter + 1) % U32 } := rfl

theorem GetReadings_id (s : DeviceState) (now : ℤ) :
    (GetReadings s now).1.sample_id = (s.sampleCounter + 1) % U32 := rfl

theorem GetReadings_snd_counter (s : DeviceState) (now : ℤ) :
    (GetReadings s now).2.sampleCounter = (s.sampleCounter + 1) % U32 := rfl

theorem sendReadings_503_line :
    sendReadingsToServer (.reply "HTTP/1.1 503 Service Unavailable") = (false, 503) := by
  with_unfolding_all decide

/-- Shared helper: `PushNow` against a transport whose status line parses to
503 reports an error with http_status 503, bumps `sendFailCount` (modulo
`2 ^ 32`) and leaves `sendSuccessCount` alone. -/
theorem PushNow_reject_of_503 (s : DeviceState) (now : ℤ) (line : String)
    (h1 : charsBeginWith "HTTP/1.1 ".toList line.toList = true)
    (h2 : particleToInt (substringChars line 9 12) = 503) :
    (PushNow s now (.reply line)).1.status = "error" ∧
    (PushNow s now (.reply line)).1.error_reason = "send_failed" ∧
    (PushNow s now (.reply line)).1.http_status = some 503 ∧
    (PushNow s now (.reply line)).2.sendFailCount = (s.sendFailCount + 1) % U32 ∧
    (PushNow s now (.reply line)).2.sendSuccessCount = s.sendSuccessCount := by
  have hsend : sendReadingsToServer (.reply line) = (false, 503) := by
    unfold sendReadingsToServer
    dsimp only
    rw [if_pos h1, h2]
    rfl
  unfold PushNow
  rw [hsend]
  exact ⟨rfl, rfl, rfl, rfl, rfl⟩

-- ----- C1 -----------------------------------------------------------------

/-- One `PushNow` invocation against a transport answering 503 (state part). -/
def push503Step (s : DeviceState) : DeviceState :=
  (PushNow s 0 (.reply "HTTP/1.1 503 Service Unavailable")).2

theorem push503Step_sendFailCount (s : DeviceState) :
    (push503Step s).sendFailCount = (s.sendFailCount + 1) % U32 := by
  unfold push503Step PushNow
  rw [sendReadings_503_line]
  rfl

theorem push503Step_iter (n : ℕ) :
    (push503Step^[n] (bootState 0)).sendFailCount = n % U32 := by
  induction n with
  | zero => simp [bootState_eq]
  | succ n ih =>
      rw [Function.iterate_succ_apply', push503Step_sendFailCount, ih, U32_eq]
      omega

/-- Counterexample to claim C1 as stated: in the state reached after
2^32 − 1 failed pushes (send_fail_count = 4294967295, the largest uint32),
one more `PushNow` against a 503-answering transport still reports status
"error" with http_status 503, but the `uint32_t` counter wraps to 0 instead
of being incremented by exactly 1. -/
theorem PushNow_fail_count_wrap_cex :
    (push503Step^[4294967295] (bootState 0)).sendFailCount = 4294967295 ∧
    (PushNow (push503Step^[4294967295] (bootState 0)) 0
        (.reply "HTTP/1.1 503 Service Unavailable")).1.status = "error" ∧
    (PushNow (push503Step^[4294967295] (bootState 0)) 0
        (.reply "HTTP/1.1 503 Service Unavailable")).1.http_status = some 503 ∧
    (PushNow (push503Step^[4294967295] (bootState 0)) 0
        (.reply "HTTP/1.1 503 Service Unavailable")).2.sendFailCount ≠
      (push503Step^[4294967295] (bootState 0)).sendFailCount + 1 := by
  have hn : (push503Step^[4294967295] (bootState 0)).sendFailCount = 4294967295 := by
    rw [push503Step_iter, U32_eq]
  obtain ⟨hst, _, hhttp, hfail, _⟩ :=
    PushNow_reject_of_503 (push503Step^[4294967295] (bootState 0)) 0
      "HTTP/1.1 503 Service Unavailable" (by decide) (by decide)
  refine ⟨hn, hst, hhttp, ?_⟩
  rw [hfail, hn, U32_eq]
  decide

/-- Claim C1 (amended): for every invocation of `PushNow` against a
transport whose status line parses to HTTP status 503, the returned
`ActionResult` has status "error" and http_status 503, `sendFailCount` is
incremented by 1 modulo 2^32 (exactly 1 whenever the counter has not
reached 2^32 − 1), and `sendSuccessCount` is unchanged. -/
theorem PushNow_http503 (s : DeviceState) (now : ℤ) (line : String)
    (h1 : charsBeginWith "HTTP/1.1 ".toList line.toList = true)
    (h2 : particleToInt (substringChars line 9 12) = 503) :
    (PushNow s now (.reply line)).1.status = "error" ∧
    (PushNow s now (.reply line)).1.error_reason = "send_failed" ∧
    (PushNow s now (.reply line)).1.http_status = some 503 ∧
    (PushNow s now (.reply line)).2.sendFailCount = (s.sendFailCount + 1) % U32 ∧
    (s.sendFailCount + 1 < U32 →
      (PushNow s now (.reply line)).2.sendFailCount = s.sendFailCount + 1) ∧
    (PushNow s now (.reply line)).2.sendSuccessCount = s.sendSuccessCount := by
  obtain ⟨hst, hreason, hhttp, hfail, hsucc⟩ := PushNow_reject_of_503 s now line h1 h2
  refine ⟨hst, hreason, hhttp, hfail, ?_, hsucc⟩
  intro hlt
  rw [hfail, Nat.mod_eq_of_lt hlt]

theorem PushNow_http503_witness :
    (charsBeginWith "HTTP/1.1 ".toList "HTTP/1.1 503 Service Unavailable".toList = true ∧
     particleToInt (substringChars "HTTP/1.1 503 Service Unavailable" 9 12) = 503 ∧
     (bootState 7).sendFailCount + 1 < U32) ∧
    ((PushNow (bootState 7) 9 (.reply "HTTP/1.1 503 Service Unavailable")).1.status = "error" ∧
     (PushNow (bootState 7) 9 (.reply "HTTP/1.1 503 Service Unavailable")).1.http_status = some 503 ∧
     (PushNow (bootState 7) 9 (.reply "HTTP/1.1 503 Service Unavailable")).2.sendFailCount =
       (bootState 7).sendFailCount + 1 ∧
     (PushNow (bootState 7) 9 (.reply "HTTP/1.1 503 Service Unavailable")).2.sendSuccessCount =
       (bootState 7).sendSuccessCount) :=
  ⟨⟨by decide, by decide, by rw [bootState_eq, U32_eq]; decide⟩,
   ⟨(PushNow_http503 (bootState 7) 9 _ (by decide) (by decide)).1,
    (PushNow_http503 (bootState 7) 9 _ (by decide) (by decide)).2.2.1,
    (PushNow_http503 (bootState 7) 9 _ (by decide) (by decide)).2.2.2.2.1
      (by rw [bootState_eq, U32_eq]; decide),
    (PushNow_http503 (bootState 7) 9 _ (by decide) (by decide)).2.2.2.2.2⟩⟩

-- ----- C2 -----------------------------------------------------------------

/-- Claim C2: on a boot with no prior persisted record, the loaded
configuration is the documented defaults (display_interval = 1.0,
server_interval = 5.0), boot_count is exactly 1, both send counters are 0,
and the first `GetConfig` call reflects boot_count = 1. -/
theorem boot_defaults_loaded (now : ℤ) :
    (bootState now).displayIntervalCfg.current_value = 1 ∧
    (bootState now).serverIntervalCfg.current_value = 5 ∧
    (bootState now).persistent.boot_count = 1 ∧
    (bootState now).sendSuccessCount = 0 ∧
    (bootState now).sendFailCount = 0 ∧
    (GetConfig (bootState now)).boot_count = 1 ∧
    (GetConfig (bootState now)).send_success_count = 0 ∧
    (GetConfig (bootState now)).send_fail_count = 0 ∧
    (GetConfig (bootState now)).display_interval.current_value = 1 ∧
    (GetConfig (bootState now)).server_interval.current_value = 5 := by
  rw [bootState_eq]
  simp [GetConfig]

-- ----- C3 -----------------------------------------------------------------

/-- Claim C3: on every scheduler-loop tick where (now − last_push_time) ≥
server_interval converted to seconds, the loop takes a fresh sample (a new
`ReadingPayload` carrying the next sample_id) immediately before handing it
to the transport, and sets last_push_time to the tick's current time. -/
theorem loop_push_fresh_sample (s : DeviceState) (now : ℤ) (t : TransportBehavior)
    (h : now - s.lastServerPush ≥ floatToTimeT (s.serverIntervalCfg.current_value * 60)) :
    (loop s now t).1 = some ((GetReadings { s with lastServerPush := now } now).1) ∧
    ((GetReadings { s with lastServerPush := now } now).1).sample_id =
      (s.sampleCounter + 1) % U32 ∧
    (loop s now t).2.sampleCounter = (s.sampleCounter + 1) % U32 ∧
    (loop s now t).2.lastServerPush = now := by
  unfold loop
  rw [if_pos h]
  dsimp only
  refine ⟨?_, rfl, ?_, ?_⟩ <;> (split <;> rfl)

theorem loop_push_fresh_sample_witness :
    ((300 : ℤ) - (bootState 0).lastServerPush ≥
      floatToTimeT ((bootState 0).serverIntervalCfg.current_value * 60)) ∧
    ((loop (bootState 0) 300 .connectFail).1 =
      some ((GetReadings { bootState 0 with lastServerPush := 300 } 300).1) ∧
     ((GetReadings { bootState 0 with lastServerPush := 300 } 300).1).sample_id =
      ((bootState 0).sampleCounter + 1) % U32 ∧
     (loop (bootState 0) 300 .connectFail).2.sampleCounter =
      ((bootState 0).sampleCounter + 1) % U32 ∧
     (loop (bootState 0) 300 .connectFail).2.lastServerPush = 300) :=
  ⟨by with_unfolding_all decide,
   loop_push_fresh_sample (bootState 0) 300 .connectFail (by with_unfolding_all decide)⟩

-- ----- C4 -----------------------------------------------------------------

/-- Claim C4: the transmission send routine classifies outcomes as:
parsed HTTP status in [200, 300) → success; any other parsed status →
failure carrying that status; connect failure or timeout (a status line
that does not start with "HTTP/1.1 ") → failure with status_code 0. -/
theorem sendReadings_outcome_classes (line : String) :
    sendReadingsToServer .connectFail = (false, 0) ∧
    (charsBeginWith "HTTP/1.1 ".toList line.toList = false →
      sendReadingsToServer (.reply line) = (false, 0)) ∧
    (charsBeginWith "HTTP/1.1 ".toList line.toList = true →
      (sendReadingsToServer (.reply line)).2 = particleToInt (substringChars line 9 12) ∧
      ((sendReadingsToServer (.reply line)).1 = true ↔
        200 ≤ particleToInt (substringChars line 9 12) ∧
        particleToInt (substringChars line 9 12) < 300)) := by
  refine ⟨rfl, ?_, ?_⟩
  · intro h
    unfold sendReadingsToServer
    dsimp only
    rw [if_neg (by simp only [h]; exact Bool.false_ne_true)]
    rfl
  · intro h
    unfold sendReadingsToServer
    dsimp only
    rw [if_pos h]
    exact ⟨rfl, by simp⟩

theorem sendReadings_outcome_classes_witness :
    (charsBeginWith "HTTP/1.1 ".toList "TIMEOUT".toList = false ∧
      sendReadingsToServer (.reply "TIMEOUT") = (false, 0)) ∧
    (charsBeginWith "HTTP/1.1 ".toList "HTTP/1.1 404 Not Found".toList = true ∧
      ((sendReadingsToServer (.reply "HTTP/1.1 404 Not Found")).2 =
        particleToInt (substringChars "HTTP/1.1 404 Not Found" 9 12) ∧
       ((sendReadingsToServer (.reply "HTTP/1.1 404 Not Found")).1 = true ↔
        200 ≤ particleToInt (substringChars "HTTP/1.1 404 Not Found" 9 12) ∧
        particleToInt (substringChars "HTTP/1.1 404 Not Found" 9 12) < 300))) :=
  ⟨⟨by decide, (sendReadings_outcome_classes "TIMEOUT").2.1 (by decide)⟩,
   ⟨by decide, (sendReadings_outcome_classes "HTTP/1.1 404 Not Found").2.2 (by decide)⟩⟩

-- ----- C5 -----------------------------------------------------------------

/-- Claim C5: for every value v outside [0.1, 60.0], `SetDisplayInterval v`
and `SetServerInterval v` return status "error" with reason "out_of_range"
and perform no mutation at all: the returned state is the input state (so
value, timestamp and source of both parameters are unchanged and no
persistence write occurs). -/
theorem set_out_of_range_rejected (s : DeviceState) (now : ℤ) (v : ℚ)
    (h : v < 1/10 ∨ 60 < v) :
    SetDisplayInterval s now v =
      ({ status := "error", error_reason := "out_of_range", http_status := none }, s) ∧
    SetServerInterval s now v =
      ({ status := "error", error_reason := "out_of_range", http_status := none }, s) := by
  constructor
  · unfold SetDisplayInterval; rw [if_pos h]
  · unfold SetServerInterval; rw [if_pos h]

theorem set_out_of_range_rejected_witness :
    ((1 : ℚ)/20 < 1/10 ∨ 60 < (1 : ℚ)/20) ∧
    (SetDisplayInterval (bootState 0) 3 (1/20) =
      ({ status := "error", error_reason := "out_of_range", http_status := none },
       bootState 0) ∧
     SetServerInterval (bootState 0) 3 (1/20) =
      ({ status := "error", error_reason := "out_of_range", http_status := none },
       bootState 0)) :=
  ⟨by norm_num,
   set_out_of_range_rejected (bootState 0) 3 (1/20) (by norm_num)⟩

-- ----- C6 -----------------------------------------------------------------

/-- Claim C6: for every valid interval value v in [0.1, 60.0] that is not
within epsilon of the current value, a successful set of an interval
parameter followed by a read of that parameter returns current_value = v
with the set-call's timestamp and source "Cloud/UI". -/
theorem set_then_get_roundtrip (s : DeviceState) (now : ℤ) (v : ℚ)
    (hlo : 1/10 ≤ v) (hhi : v ≤ 60) :
    (¬ |s.displayIntervalCfg.current_value - v| < 1/10000 →
      (SetDisplayInterval s now v).1.status = "ok" ∧
      (GetConfig (SetDisplayInterval s now v).2).display_interval = ⟨v, now, "Cloud/UI"⟩) ∧
    (¬ |s.serverIntervalCfg.current_value - v| < 1/10000 →
      (SetServerInterval s now v).1.status = "ok" ∧
      (GetConfig (SetServerInterval s now v).2).server_interval = ⟨v, now, "Cloud/UI"⟩) := by
  have hc : ¬ (v < 1/10 ∨ 60 < v) := not_or.mpr ⟨not_lt.mpr hlo, not_lt.mpr hhi⟩
  constructor <;> intro h
  · unfold SetDisplayInterval
    rw [if_neg hc, if_neg h]
    exact ⟨rfl, rfl⟩
  · unfold SetServerInterval
    rw [if_neg hc, if_neg h]
    exact ⟨rfl, rfl⟩

theorem set_then_get_roundtrip_witness :
    ((1 : ℚ)/10 ≤ 5/2 ∧ (5 : ℚ)/2 ≤ 60 ∧
      ¬ |(bootState 0).displayIntervalCfg.current_value - 5/2| < 1/10000) ∧
    ((SetDisplayInterval (bootState 0) 42 (5/2)).1.status = "ok" ∧
      (GetConfig (SetDisplayInterval (bootState 0) 42 (5/2)).2).display_interval =
        ⟨5/2, 42, "Cloud/UI"⟩) :=
  ⟨⟨by norm_num, by norm_num, by rw [bootState_eq]; norm_num [abs_lt]⟩,
   (set_then_get_roundtrip (bootState 0) 42 (5/2) (by norm_num) (by norm_num)).1
     (by rw [bootState_eq]; norm_num [abs_lt])⟩

-- ----- C7 -----------------------------------------------------------------

/-- A reachable state whose display interval is exactly 0.1 (set remotely
from the boot default 1.0). -/
def epsState : DeviceState := (SetDisplayInterval (bootState 0) 5 (1/10)).2

/-- Counterexample to claim C7 as stated: the value 0.09995 differs from the
current display interval 0.1 by 0.00005 < 1e-4, yet `SetDisplayInterval`
returns status "error" (the range check runs before the epsilon check), not
the success the claim asserts. -/
theorem set_epsilon_claim_cex :
    |epsState.displayIntervalCfg.current_value - 1999/20000| < 1/10000 ∧
    (SetDisplayInterval epsState 7 (1999/20000)).1.status = "error" ∧
    (SetDisplayInterval epsState 7 (1999/20000)).1.error_reason = "out_of_range" ∧
    ¬ (SetDisplayInterval epsState 7 (1999/20000)).1.status = "ok" := by
  with_unfolding_all decide

/-- Claim C7 as amended: for every new value inside the valid range
[0.1, 60.0] whose absolute difference from the parameter's current value is
below 1e-4, `SetDisplayInterval` and `SetServerInterval` return success and
leave the whole state unchanged (no value/timestamp/source mutation and no
persistence write); an out-of-range value is rejected with "out_of_range"
even when it is within epsilon of the current value. -/
theorem set_epsilon_noop (s : DeviceState) (now : ℤ) (v : ℚ)
    (hr : ¬ (v < 1/10 ∨ 60 < v)) :
    (|s.displayIntervalCfg.current_value - v| < 1/10000 →
      SetDisplayInterval s now v =
        ({ status := "ok", error_reason := "", http_status := none }, s)) ∧
    (|s.serverIntervalCfg.current_value - v| < 1/10000 →
      SetServerInterval s now v =
        ({ status := "ok", error_reason := "", http_status := none }, s)) := by
  constructor <;> intro h
  · unfold SetDisplayInterval
    rw [if_neg hr, if_pos h]
  · unfold SetServerInterval
    rw [if_neg hr, if_pos h]

theorem set_epsilon_noop_witness :
    (¬ ((1 : ℚ) < 1/10 ∨ 60 < (1 : ℚ)) ∧
      |(bootState 0).displayIntervalCfg.current_value - 1| < 1/10000 ∧
      SetDisplayInterval (bootState 0) 3 1 =
        ({ status := "ok", error_reason := "", http_status := none }, bootState 0)) ∧
    (¬ ((5 : ℚ) < 1/10 ∨ 60 < (5 : ℚ)) ∧
      |(bootState 0).serverIntervalCfg.current_value - 5| < 1/10000 ∧
      SetServerInterval (bootState 0) 3 5 =
        ({ status := "ok", error_reason := "", http_status := none }, bootState 0)) :=
  ⟨⟨by norm_num, by rw [bootState_eq]; norm_num,
    (set_epsilon_noop (bootState 0) 3 1 (by norm_num)).1
      (by rw [bootState_eq]; norm_num)⟩,
   ⟨by norm_num, by rw [bootState_eq]; norm_num,
    (set_epsilon_noop (bootState 0) 3 5 (by norm_num)).2
      (by rw [bootState_eq]; norm_num)⟩⟩

-- ----- C8 -----------------------------------------------------------------

theorem validateLoaded_display (p : PersistentConfig) :
    (validateLoaded p).display_interval =
      if p.display_interval < 1/10 ∨ 60 < p.display_interval
      then 1 else p.display_interval := rfl

theorem validateLoaded_server (p : PersistentConfig) :
    (validateLoaded p).server_interval =
      if p.server_interval < 1/10 ∨ 60 < p.server_interval
      then 5 else p.server_interval := rfl

theorem validateLoaded_boot (p : PersistentConfig) :
    (validateLoaded p).boot_count = p.boot_count := rfl

/-- Claim C8: the load-time validation is total and replaces exactly the
out-of-range interval fields with their documented defaults (display 1.0,
server 5.0), leaves in-range fields alone, returns an already-in-range
record unchanged, and never touches boot_count. -/
theorem load_replaces_out_of_range (p : PersistentConfig) :
    (p.display_interval < 1/10 ∨ 60 < p.display_interval →
      (validateLoaded p).display_interval = 1) ∧
    (p.server_interval < 1/10 ∨ 60 < p.server_interval →
      (validateLoaded p).server_interval = 5) ∧
    (¬ (p.display_interval < 1/10 ∨ 60 < p.display_interval) →
      (validateLoaded p).display_interval = p.display_interval) ∧
    (¬ (p.server_interval < 1/10 ∨ 60 < p.server_interval) →
      (validateLoaded p).server_interval = p.server_interval) ∧
    (¬ (p.display_interval < 1/10 ∨ 60 < p.display_interval) →
     ¬ (p.server_interval < 1/10 ∨ 60 < p.server_interval) →
      validateLoaded p = p) ∧
    (validateLoaded p).boot_count = p.boot_count := by
  have hD := validateLoaded_display p
  have hS := validateLoaded_server p
  have hB := validateLoaded_boot p
  refine ⟨?_, ?_, ?_, ?_, ?_, hB⟩
  · intro h; rw [hD, if_pos h]
  · intro h; rw [hS, if_pos h]
  · intro h; rw [hD, if_neg h]
  · intro h; rw [hS, if_neg h]
  · intro h1 h2
    ext
    · rw [hD, if_neg h1]
    · rw [hS, if_neg h2]
    · exact hB

theorem load_replaces_out_of_range_witness :
    (((0 : ℚ) < 1/10 ∨ 60 < (0 : ℚ)) ∧
      (validateLoaded ⟨0, 999, 7⟩).display_interval = 1) ∧
    (((999 : ℚ) < 1/10 ∨ 60 < (999 : ℚ)) ∧
      (validateLoaded ⟨0, 999, 7⟩).server_interval = 5) ∧
    (¬ ((2 : ℚ) < 1/10 ∨ 60 < (2 : ℚ)) ∧ ¬ ((3 : ℚ) < 1/10 ∨ 60 < (3 : ℚ)) ∧
      validateLoaded ⟨2, 3, 9⟩ = ⟨2, 3, 9⟩) :=
  ⟨⟨by norm_num, (load_replaces_out_of_range ⟨0, 999, 7⟩).1 (by norm_num)⟩,
   ⟨by norm_num, (load_replaces_out_of_range ⟨0, 999, 7⟩).2.1 (by norm_num)⟩,
   ⟨by norm_num, by norm_num,
    (load_replaces_out_of_range ⟨2, 3, 9⟩).2.2.2.2.1 (by norm_num) (by norm_num)⟩⟩

-- ----- C9 -----------------------------------------------------------------

/-- One `GetReadings` invocation (state part). -/
def sampleStep (s : DeviceState) : DeviceState := (GetReadings s 0).2

theorem sampleStep_counter (s : DeviceState) :
    (sampleStep s).sampleCounter = (s.sampleCounter + 1) % U32 := rfl

theorem sampleStep_iter (n : ℕ) :
    (sampleStep^[n] (bootState 0)).sampleCounter = n % U32 := by
  induction n with
  | zero => simp [bootState_eq]
  | succ n ih =>
      rw [Function.iterate_succ_apply', sampleStep_counter, ih, U32_eq]
      omega

/-- Counterexample to claim C9 as stated: in the state reached after
2^32 − 2 samples, the next two consecutive `GetReadings` calls receive
sample_ids 4294967295 and then 0 — the `uint32_t` counter wraps, so the
second id is not the first incremented by exactly 1. -/
theorem sample_id_wrap_cex :
    (sampleStep^[4294967294] (bootState 0)).sampleCounter = 4294967294 ∧
    (GetReadings (sampleStep^[4294967294] (bootState 0)) 0).1.sample_id = 4294967295 ∧
    (GetReadings (GetReadings (sampleStep^[4294967294] (bootState 0)) 0).2 0).1.sample_id = 0 ∧
    (GetReadings (GetReadings (sampleStep^[4294967294] (bootState 0)) 0).2 0).1.sample_id ≠
      (GetReadings (sampleStep^[4294967294] (bootState 0)) 0).1.sample_id + 1 := by
  have hc : (sampleStep^[4294967294] (bootState 0)).sampleCounter = 4294967294 := by
    rw [sampleStep_iter, U32_eq]
  refine ⟨hc, ?_, ?_, ?_⟩
  · rw [GetReadings_id, hc, U32_eq]
  · rw [GetReadings_id, GetReadings_snd_counter, hc, U32_eq]
  · rw [GetReadings_id, GetReadings_snd_counter, hc]
    rw [GetReadings_id, hc]
    rw [U32_eq]
    decide

/-- Claim C9 (amended): within one process lifetime the sample_id starts at
1 on the first `GetReadings` call after boot and advances by exactly 1
modulo 2^32 across consecutive calls (by exactly 1 as long as fewer than
2^32 − 1 samples have been taken); the counter is untouched by the
configuration operations (`SetDisplayInterval`, `SetServerInterval`,
`GetConfig` is read-only), so interleaving them does not disturb the
sequence. -/
theorem sample_id_increment_mod (s : DeviceState) (n0 n1 n2 : ℤ) (v : ℚ) :
    (GetReadings (bootState n0) n1).1.sample_id = 1 ∧
    (GetReadings (GetReadings s n1).2 n2).1.sample_id =
      ((GetReadings s n1).1.sample_id + 1) % U32 ∧
    (s.sampleCounter + 2 < U32 →
      (GetReadings (GetReadings s n1).2 n2).1.sample_id =
        (GetReadings s n1).1.sample_id + 1) ∧
    (SetDisplayInterval s n1 v).2.sampleCounter = s.sampleCounter ∧
    (SetServerInterval s n1 v).2.sampleCounter = s.sampleCounter := by
  refine ⟨?_, ?_, ?_, ?_, ?_⟩
  · rw [GetReadings_id, bootState_eq, U32_eq]
    rfl
  · simp only [GetReadings_id, GetReadings_snd_counter]
  · intro hlt
    simp only [GetReadings_id, GetReadings_snd_counter]
    rw [U32_eq] at hlt ⊢
    omega
  · unfold SetDisplayInterval savePersistent
    split <;> first | rfl | (split <;> rfl)
  · unfold SetServerInterval savePersistent
    split <;> first | rfl | (split <;> rfl)

theorem sample_id_increment_mod_witness :
    ((bootState 0).sampleCounter + 2 < U32) ∧
    ((GetReadings (bootState 5) 6).1.sample_id = 1 ∧
     (GetReadings (GetReadings (bootState 0) 6).2 7).1.sample_id =
       ((GetReadings (bootState 0) 6).1.sample_id + 1) % U32 ∧
     (GetReadings (GetReadings (bootState 0) 6).2 7).1.sample_id =
       (GetReadings (bootState 0) 6).1.sample_id + 1 ∧
     (SetDisplayInterval (bootState 0) 6 (1/2)).2.sampleCounter =
       (bootState 0).sampleCounter ∧
     (SetServerInterval (bootState 0) 6 (1/2)).2.sampleCounter =
       (bootState 0).sampleCounter) :=
  ⟨by rw [bootState_eq, U32_eq]; decide,
   ⟨(sample_id_increment_mod (bootState 0) 5 6 7 (1/2)).1,
    (sample_id_increment_mod (bootState 0) 6 6 7 (1/2)).2.1,
    (sample_id_increment_mod (bootState 0) 6 6 7 (1/2)).2.2.1
      (by rw [bootState_eq, U32_eq]; decide),
    (sample_id_increment_mod (bootState 0) 6 6 7 (1/2)).2.2.2.1,
    (sample_id_increment_mod (bootState 0) 6 6 7 (1/2)).2.2.2.2⟩⟩

-- ----- C10 ----------------------------------------------------------------

/-- Claim C10 (frame): `SetDisplayInterval` never modifies the
server-interval parameter (value, timestamp or source), `SetServerInterval`
never modifies the display-interval parameter, and neither setter modifies
boot_count, send_success_count, send_fail_count or the sample counter. -/
theorem setters_frame (s : DeviceState) (now : ℤ) (v : ℚ) :
    (SetDisplayInterval s now v).2.serverIntervalCfg = s.serverIntervalCfg ∧
    (SetDisplayInterval s now v).2.persistent.boot_count = s.persistent.boot_count ∧
    (SetDisplayInterval s now v).2.sendSuccessCount = s.sendSuccessCount ∧
    (SetDisplayInterval s now v).2.sendFailCount = s.sendFailCount ∧
    (SetDisplayInterval s now v).2.sampleCounter = s.sampleCounter ∧
    (SetServerInterval s now v).2.displayIntervalCfg = s.displayIntervalCfg ∧
    (SetServerInterval s now v).2.persistent.boot_count = s.persistent.boot_count ∧
    (SetServerInterval s now v).2.sendSuccessCount = s.sendSuccessCount ∧
    (SetServerInterval s now v).2.sendFailCount = s.sendFailCount ∧
    (SetServerInterval s now v).2.sampleCounter = s.sampleCounter := by
  unfold SetDisplayInterval SetServerInterval savePersistent
  refine ⟨?_, ?_, ?_, ?_, ?_, ?_, ?_, ?_, ?_, ?_⟩ <;>
    (split <;> first | rfl | (split <;> rfl))

end JA485
